import Mathlib

/-!
Shallow embedding of the rule-based anomaly detection engine of
`src/rules/engine.py` (class `BusinessRulesEngine`) together with the
`Alert` schema of `src/models/schemas.py`.

Modelling conventions:
* pandas float64 arithmetic is embedded as exact rational arithmetic (`ℚ`);
  `x.std()` comparisons `|x - m| > 2*std` are embedded as the equivalent
  squared form `(x - m)^2 > 4 * var` to stay inside `ℚ`.
* Python `int(x)` (truncation toward zero) is `truncInt`.
* A pandas DataFrame is a column-name set plus a list of rows; every row
  carries all fields, and a detector may consult a field only after checking
  that its column is present, exactly as the Python code guards with
  `'c' in df.columns`.  In-place column assignments (`df['date_only'] = ...`)
  are modelled by returning an updated DataFrame from the detector.
* A Python exception escaping a detector is the `DetOutcome.error` value;
  `run_all_rules` drops it, mirroring the `try/except` in the dispatcher.
* numpy scalar division by zero yields ±inf (not an exception); the one
  place this matters (`deviation = abs(x - mean) / mean` with `mean = 0`
  and `abs(x - mean) > 0`) is embedded by `payrollDevFlag`, where
  `+inf > threshold` is true for every rational threshold.
* The `evidence` dict of a RuleResult (justification sub-statistics) is not
  modelled: no verified property refers to it; its construction can raise,
  and those column accesses are modelled as error conditions.
* Python float `%.1f` rendering inside messages is abstracted by the
  rational's `toString`; no property depends on the digits of a message.
-/

namespace KPIRules

/-- A timestamp at hour resolution: calendar day as days since the epoch
(1970-01-01, a Thursday) plus the hour of day, which is all the engine
derives from `pd.to_datetime` (`.dt.date`, `.dt.hour`, `.dt.dayofweek`,
day differences). -/
structure Timestamp where
  epochDay : Int
  hour : Int
deriving DecidableEq, Repr

/-- pandas `dayofweek`: Monday = 0 .. Sunday = 6. -/
def Timestamp.dayOfWeek (t : Timestamp) : Int :=
  (t.epochDay + 3) % 7

/-- Hour-resolution linearisation of a timestamp, used for min/max and
day-difference computations. -/
def Timestamp.linear (t : Timestamp) : Int :=
  t.epochDay * 24 + t.hour

/-- Embeds `(pd.to_datetime(b) - pd.to_datetime(a)).days`: the timedelta day count,
flooring the hour-resolution difference. -/
def daysBetween (a b : Timestamp) : Int :=
  Int.fdiv (b.linear - a.linear) 24

/-- The column names the engine ever consults on a DataFrame, including the
three helper columns that detectors assign in place. -/
inductive Col
  | date | amount | supplier | description | unit_price | quantity
  | price_mean | is_emergency | employee_id | name | position
  | total_payment | date_only | hour | day_of_week
deriving DecidableEq, Repr

/-- One row of the normalized table.  `rid` is the pandas index label
(`df.index`), which is what detectors report in `affected_records`.
The helper columns `date_only`/`hour`/`day_of_week` are functions of `date`
and are therefore not stored. -/
structure Row where
  rid : String
  date : Timestamp
  amount : Rat
  supplier : String
  description : String
  unit_price : Rat
  quantity : Rat
  price_mean : Rat
  is_emergency : Bool
  employee_id : String
  name : String
  position : String
  total_payment : Rat
deriving DecidableEq, Repr

/-- A pandas DataFrame: which columns exist, and the rows. -/
structure DataFrame where
  cols : List Col
  rows : List Row
deriving DecidableEq, Repr

/-- Embeds `df[c] = ...` on a derived column: adds the column name if absent
(values are determined by `date`, hence not stored). -/
def DataFrame.addCol (df : DataFrame) (c : Col) : DataFrame :=
  if c ∈ df.cols then df else { df with cols := df.cols ++ [c] }

/-- The `config["thresholds"]` object (loaded from `config/config.json`). -/
structure Thresholds where
  overpricing_percentage : Rat
  split_order_threshold : Rat
  supplier_concentration_threshold : Rat
  emergency_recurrence_days : Int
  payroll_variation_threshold : Rat
deriving DecidableEq, Repr

/-- The example configuration used throughout the specification
(25 %, 8000, 0.70, 30 days, 0.30). -/
def exampleThresholds : Thresholds :=
  { overpricing_percentage := 25
    split_order_threshold := 8000
    supplier_concentration_threshold := 7/10
    emergency_recurrence_days := 30
    payroll_variation_threshold := 3/10 }

/-- Python `int(x)`: truncation toward zero (the rational is stored in
lowest terms with positive denominator). -/
def truncInt (q : Rat) : Int :=
  Int.tdiv q.num (q.den : Int)

/-- The `RuleType` enum of `engine.py`. -/
inductive RuleType
  | overpricing | split_orders | supplier_concentration
  | recurring_emergency | payroll_anomaly | unusual_timing
  | duplicate_payments
deriving DecidableEq, Repr

/-- The Python `RuleType.value` string. -/
def RuleType.value : RuleType → String
  | .overpricing => "overpricing"
  | .split_orders => "split_orders"
  | .supplier_concentration => "supplier_concentration"
  | .recurring_emergency => "recurring_emergency"
  | .payroll_anomaly => "payroll_anomaly"
  | .unusual_timing => "unusual_timing"
  | .duplicate_payments => "duplicate_payments"

/-- Evaluates `result.rule_type.value.replace('_', ' ').title()` on the
seven enum constants. -/
def RuleType.humanCased : RuleType → String
  | .overpricing => "Overpricing"
  | .split_orders => "Split Orders"
  | .supplier_concentration => "Supplier Concentration"
  | .recurring_emergency => "Recurring Emergency"
  | .payroll_anomaly => "Payroll Anomaly"
  | .unusual_timing => "Unusual Timing"
  | .duplicate_payments => "Duplicate Payments"

/-- The `RuleResult` dataclass (the `evidence` dict is not modelled, see the
file header). -/
structure RuleResult where
  rule_type : RuleType
  passed : Bool
  score : Int
  message : String
  affected_records : List String
deriving DecidableEq, Repr

/-- What one detector invocation can produce, seen from the dispatcher:
a Python exception (`error`), `None` (`none`), or a `RuleResult` (`res`). -/
inductive DetOutcome
  | error
  | none
  | res (r : RuleResult)
deriving DecidableEq, Repr

/-- The `RuleResult` carried by a `res` outcome, if any. -/
def DetOutcome.result : DetOutcome → Option RuleResult
  | .res r => some r
  | _ => Option.none

/-- First-occurrence deduplication (`seen` accumulates emitted keys); pandas
`groupby` iterates each key once.  (pandas additionally sorts the keys; key
order only permutes group iteration, on which no verified property
depends.) -/
def dedupFirstAux {α : Type} [DecidableEq α] (seen : List α) : List α → List α
  | [] => []
  | a :: l =>
    if a ∈ seen then dedupFirstAux seen l
    else a :: dedupFirstAux (a :: seen) l

/-- The distinct keys of a list, first occurrence first. -/
def dedupFirst {α : Type} [DecidableEq α] (l : List α) : List α :=
  dedupFirstAux [] l

/-- Embeds `df.groupby(key)`: one `(key, group)` pair per distinct key, the group
being the subsequence of rows with that key (pandas keeps intra-group row
order). -/
def groupsBy {κ : Type} [DecidableEq κ] (key : Row → κ) (rows : List Row) :
    List (κ × List Row) :=
  (dedupFirst (rows.map key)).map
    (fun k => (k, rows.filter (fun r => decide (key r = k))))

/-- The `series.sum()` of the `amount` column of a group. -/
def sumAmounts (l : List Row) : Rat :=
  (l.map (·.amount)).sum

/-- The mask of `_check_overpricing`:
`(unit_price > price_mean * (1 + threshold)) & (price_mean > 0) & (unit_price > 0)`
with `threshold = overpricing_percentage / 100`. -/
def overpricedRows (th : Thresholds) (df : DataFrame) : List Row :=
  df.rows.filter (fun r =>
    decide (r.price_mean * (1 + th.overpricing_percentage / 100) < r.unit_price
      ∧ 0 < r.price_mean ∧ 0 < r.unit_price))

/-- Embeds `BusinessRulesEngine._check_overpricing`. -/
def _check_overpricing (th : Thresholds) (df : DataFrame) :
    DetOutcome × DataFrame :=
  if Col.unit_price ∈ df.cols ∧ Col.price_mean ∈ df.cols then
    let flagged := overpricedRows th df
    if 0 < flagged.length then
      let avg := ((flagged.map
        (fun r => (r.unit_price / r.price_mean - 1) * 100)).sum) / (flagged.length : Rat)
      let score := min 10 (truncInt ((flagged.length : Rat) / 10) + truncInt (avg / 50))
      -- building the evidence dict evaluates
      -- `overpriced_items.nlargest(5, 'unit_price')[['description', ...]]`,
      -- which raises KeyError when `description` is absent
      if Col.description ∈ df.cols then
        (.res { rule_type := .overpricing, passed := false, score := score,
                message := "Found " ++ toString flagged.length ++
                  " items with prices " ++ toString avg ++ "% above market average",
                affected_records := flagged.map (·.rid) }, df)
      else (.error, df)
    else
      (.res { rule_type := .overpricing, passed := true, score := 0,
              message := "No overpricing detected", affected_records := [] }, df)
  else (.none, df)

/-- The `(supplier, date_only)` grouping key of `_check_split_orders`
(`.dt.date` is the calendar day). -/
def splitKey (r : Row) : String × Int :=
  (r.supplier, r.date.epochDay)

/-- The suspicious groups of `_check_split_orders`: more than one order from
one supplier on one day, more than one individual amount below the
threshold, summed amount above the threshold. -/
def splitSuspicious (th : Thresholds) (rows : List Row) :
    List ((String × Int) × List Row) :=
  (groupsBy splitKey rows).filter (fun g =>
    decide (1 < g.2.length) &&
    (decide (1 < (g.2.filter
        (fun r => decide (r.amount < th.split_order_threshold))).length) &&
      decide (th.split_order_threshold < sumAmounts g.2)))

/-- Embeds `BusinessRulesEngine._check_split_orders`.  Note the in-place
`df['date_only'] = pd.to_datetime(df['date']).dt.date`: it reads `date`
(KeyError when absent) and adds a helper column to the caller's frame. -/
def _check_split_orders (th : Thresholds) (df : DataFrame) :
    DetOutcome × DataFrame :=
  if Col.supplier ∈ df.cols ∧ Col.amount ∈ df.cols then
    if Col.date ∈ df.cols then
      let df2 := df.addCol Col.date_only
      let suspicious := splitSuspicious th df2.rows
      if 0 < suspicious.length then
        let totalRecords := (suspicious.map (fun g => g.2.length)).sum
        let score := min 10 ((suspicious.length : Int) +
          truncInt ((totalRecords : Rat) / 5))
        (.res { rule_type := .split_orders, passed := false, score := score,
                message := "Found " ++ toString suspicious.length ++
                  " potential order splitting cases involving " ++
                  toString totalRecords ++ " records",
                affected_records :=
                  (suspicious.map (fun g => g.2.map (·.rid))).flatten }, df2)
      else
        (.res { rule_type := .split_orders, passed := true, score := 0,
                message := "No order splitting detected",
                affected_records := [] }, df2)
    else (.error, df)
  else (.none, df)

/-- Embeds `df.groupby('supplier')['amount'].sum()` as an association list. -/
def supplierTotals (rows : List Row) : List (String × Rat) :=
  (groupsBy (·.supplier) rows).map (fun g => (g.1, sumAmounts g.2))

/-- Insertion step of the descending sort standing in for
`sort_values(ascending=False)`. -/
def insertDescBy (x : String × Rat) : List (String × Rat) → List (String × Rat)
  | [] => [x]
  | y :: l => if y.2 < x.2 then x :: y :: l else y :: insertDescBy x l

/-- Sort supplier totals by amount, largest first. -/
def sortDesc (l : List (String × Rat)) : List (String × Rat) :=
  l.foldr insertDescBy []

/-- Embeds `supplier_totals.sum()`: the total spending the concentration detector
divides by. -/
def totalSpending (rows : List Row) : Rat :=
  ((supplierTotals rows).map (·.2)).sum

/-- Embeds `BusinessRulesEngine._check_supplier_concentration`. -/
def _check_supplier_concentration (th : Thresholds) (df : DataFrame) :
    DetOutcome × DataFrame :=
  if Col.supplier ∈ df.cols ∧ Col.amount ∈ df.cols then
    let totals := sortDesc (supplierTotals df.rows)
    let total := totalSpending df.rows
    if total = 0 then (.none, df)
    else
      let top := totals.headD ("", 0)
      let topPct := top.2 / total
      let top3Pct := ((totals.take 3).map (·.2)).sum / total
      let c1 := if th.supplier_concentration_threshold < topPct then [top] else []
      let c2 := if (8 : Rat) / 10 < top3Pct then
          (totals.take 3).filter (fun s => decide (s.1 ∉ c1.map Prod.fst))
        else []
      let concentrated := c1 ++ c2
      if 0 < concentrated.length then
        let names := concentrated.map Prod.fst
        let affected := (df.rows.filter (fun r => names.contains r.supplier)).map (·.rid)
        let score := min 10 (truncInt (topPct * 10) + (concentrated.length : Int))
        (.res { rule_type := .supplier_concentration, passed := false,
                score := score,
                message := "High supplier concentration detected: top supplier has " ++
                  toString (topPct * 100) ++ "% of total spending",
                affected_records := affected }, df)
      else
        (.res { rule_type := .supplier_concentration, passed := true, score := 0,
                message := "No excessive supplier concentration detected",
                affected_records := [] }, df)
  else (.none, df)

/-- The `min` of the `date` column of a nonempty group (hour resolution). -/
def minTs (l : List Row) : Timestamp :=
  match l with
  | [] => ⟨0, 0⟩
  | r :: rest => rest.foldl (fun a b => if b.date.linear < a.linear then b.date else a) r.date

/-- The `max` of the `date` column of a nonempty group (hour resolution). -/
def maxTs (l : List Row) : Timestamp :=
  match l with
  | [] => ⟨0, 0⟩
  | r :: rest => rest.foldl (fun a b => if a.linear < b.date.linear then b.date else a) r.date

/-- Embeds `BusinessRulesEngine._check_recurring_emergency`.  The groupby-`agg`
dict references the `date` and `amount` columns; with emergency rows present
and either column missing it raises KeyError. -/
def _check_recurring_emergency (th : Thresholds) (df : DataFrame) :
    DetOutcome × DataFrame :=
  if Col.is_emergency ∈ df.cols ∧ Col.supplier ∈ df.cols then
    let eRows := df.rows.filter (·.is_emergency)
    if eRows.length = 0 then (.none, df)
    else
      if Col.date ∈ df.cols ∧ Col.amount ∈ df.cols then
        let suspicious := ((groupsBy (·.supplier) eRows).filter
            (fun g => decide (1 < g.2.length))).filter
          (fun g => decide (daysBetween (minTs g.2) (maxTs g.2) ≤
            th.emergency_recurrence_days))
        if 0 < suspicious.length then
          let totalRecords := (suspicious.map (fun g => g.2.length)).sum
          let score := min 10 ((suspicious.length : Int) * 2 +
            truncInt ((totalRecords : Rat) / 5))
          (.res { rule_type := .recurring_emergency, passed := false,
                  score := score,
                  message := "Found " ++ toString suspicious.length ++
                    " suppliers with recurring emergency purchases within " ++
                    toString th.emergency_recurrence_days ++ " days",
                  affected_records :=
                    (suspicious.map (fun g => g.2.map (·.rid))).flatten }, df)
        else
          (.res { rule_type := .recurring_emergency, passed := true, score := 0,
                  message := "No recurring emergency purchases detected",
                  affected_records := [] }, df)
      else (.error, df)
  else (.none, df)

/-- Embeds `deviation > threshold` for a payroll outlier, where
`deviation = abs(payment - mean) / mean` on numpy float64 scalars.  The
detector only evaluates this on records with `|payment - mean| > 2*std > 0`,
so with `mean = 0` the numpy quotient is `+inf`, which exceeds every
(finite) threshold — numpy emits a warning, not an exception. -/
def payrollDevFlag (x m thr : Rat) : Bool :=
  if m = 0 then true else decide (thr < |x - m| / m)

/-- Embeds `group['total_payment'].mean()`. -/
def groupMean (l : List Row) : Rat :=
  ((l.map (·.total_payment)).sum) / (l.length : Rat)

/-- Embeds `group['total_payment'].std() ** 2`: the pandas sample variance
(`ddof = 1`).  Comparisons `|x - m| > 2*std` are embedded as
`(x - m)^2 > 4*var`, and `std > 0` as `var > 0`. -/
def groupVar (l : List Row) : Rat :=
  let m := groupMean l
  ((l.map (fun r => (r.total_payment - m) ^ 2)).sum) / ((l.length : Rat) - 1)

/-- The anomalous rows of `_check_payroll_anomaly`: within each position
group of size ≥ 3 with positive standard deviation, the rows more than two
standard deviations from the group mean whose relative deviation exceeds
the threshold. -/
def payrollAnomalies (th : Thresholds) (rows : List Row) : List Row :=
  ((groupsBy (·.position) rows).map (fun g =>
    if 2 < g.2.length then
      let m := groupMean g.2
      let v := groupVar g.2
      if 0 < v then
        (g.2.filter (fun r => decide (4 * v < (r.total_payment - m) ^ 2))).filter
          (fun r => payrollDevFlag r.total_payment m th.payroll_variation_threshold)
      else []
    else [])).flatten

/-- Embeds `BusinessRulesEngine._check_payroll_anomaly`.  Each anomaly dict reads
`employee_id` and `name` off the row; with an anomaly present and either
column missing, that access raises KeyError. -/
def _check_payroll_anomaly (th : Thresholds) (df : DataFrame) :
    DetOutcome × DataFrame :=
  if Col.total_payment ∈ df.cols ∧ Col.position ∈ df.cols then
    let anomalies := payrollAnomalies th df.rows
    if 0 < anomalies.length then
      if Col.employee_id ∈ df.cols ∧ Col.name ∈ df.cols then
        (.res { rule_type := .payroll_anomaly, passed := false,
                score := min 10 (anomalies.length : Int),
                message := "Found " ++ toString anomalies.length ++
                  " payroll anomalies with significant deviations from position averages",
                affected_records := anomalies.map (·.rid) }, df)
      else (.error, df)
    else
      (.res { rule_type := .payroll_anomaly, passed := true, score := 0,
              message := "No payroll anomalies detected",
              affected_records := [] }, df)
  else (.none, df)

/-- The mask of `_check_unusual_timing`: hour in {0..5, 22, 23} or
day-of-week in {Saturday = 5, Sunday = 6}. -/
def unusualRow (r : Row) : Bool :=
  decide (r.date.hour ∈ ([0, 1, 2, 3, 4, 5, 22, 23] : List Int)) ||
    decide (r.date.dayOfWeek ∈ ([5, 6] : List Int))

/-- Embeds `BusinessRulesEngine._check_unusual_timing`.  The in-place
`df['hour'] = ...` and `df['day_of_week'] = ...` assignments add two helper
columns to the caller's frame. -/
def _check_unusual_timing (_th : Thresholds) (df : DataFrame) :
    DetOutcome × DataFrame :=
  if Col.date ∈ df.cols then
    let df2 := (df.addCol Col.hour).addCol Col.day_of_week
    let flagged := df2.rows.filter unusualRow
    if 0 < flagged.length then
      (.res { rule_type := .unusual_timing, passed := false,
              score := min 10 (truncInt ((flagged.length : Rat) / 10)),
              message := "Found " ++ toString flagged.length ++
                " transactions at unusual times (late night, early morning, or weekends)",
              affected_records := flagged.map (·.rid) }, df2)
    else
      (.res { rule_type := .unusual_timing, passed := true, score := 0,
              message := "No unusual timing detected",
              affected_records := [] }, df2)
  else (.none, df)

/-- The composite duplicate key: always `supplier` and `amount`, plus the
full `date` timestamp when that column exists. -/
def dupKey (df : DataFrame) (r : Row) : String × Rat × Option Timestamp :=
  (r.supplier, r.amount, if Col.date ∈ df.cols then some r.date else Option.none)

/-- Embeds `df[df.duplicated(subset=available_cols, keep=False)]`: the rows whose
duplicate key occurs more than once, in original row order. -/
def dupRows (df : DataFrame) : List Row :=
  df.rows.filter (fun r =>
    decide (1 < df.rows.countP (fun x => decide (dupKey df x = dupKey df r))))

/-- Embeds `BusinessRulesEngine._check_duplicate_payments`.  Note the guard: it
returns `None` unless both `amount` and `supplier` are present, which makes
the later `len(available_cols) < 2` check unreachable. -/
def _check_duplicate_payments (_th : Thresholds) (df : DataFrame) :
    DetOutcome × DataFrame :=
  if Col.amount ∈ df.cols ∧ Col.supplier ∈ df.cols then
    let available := ([Col.supplier, Col.amount, Col.date]).filter
      (fun c => decide (c ∈ df.cols))
    if available.length < 2 then (.none, df)
    else
      let dups := dupRows df
      if 0 < dups.length then
        let dgroups := (groupsBy (dupKey df) dups).filter
          (fun g => decide (1 < g.2.length))
        (.res { rule_type := .duplicate_payments, passed := false,
                score := min 10 (dgroups.length : Int),
                message := "Found " ++ toString dgroups.length ++
                  " sets of potential duplicate payments involving " ++
                  toString dups.length ++ " records",
                affected_records := dups.map (·.rid) }, df)
      else
        (.res { rule_type := .duplicate_payments, passed := true, score := 0,
                message := "No duplicate payments detected",
                affected_records := [] }, df)
  else (.none, df)

/-- The applicability matrix of `_is_rule_applicable`. -/
def applicability : RuleType → List String
  | .overpricing => ["despesas", "contratos"]
  | .split_orders => ["despesas"]
  | .supplier_concentration => ["despesas", "contratos"]
  | .recurring_emergency => ["despesas", "contratos"]
  | .payroll_anomaly => ["folha"]
  | .unusual_timing => ["despesas", "contratos"]
  | .duplicate_payments => ["despesas", "folha"]

/-- Embeds `BusinessRulesEngine._is_rule_applicable`. -/
def isApplicable (rt : RuleType) (t : String) : Bool :=
  (applicability rt).contains t

/-- The insertion order of the `self.rules` dict, which is the iteration
order of `run_all_rules`. -/
def ruleOrder : List RuleType :=
  [.overpricing, .split_orders, .supplier_concentration, .recurring_emergency,
    .payroll_anomaly, .unusual_timing, .duplicate_payments]

/-- The `self.rules` lookup: rule type to detector function. -/
def runDetector : RuleType → Thresholds → DataFrame → DetOutcome × DataFrame
  | .overpricing => _check_overpricing
  | .split_orders => _check_split_orders
  | .supplier_concentration => _check_supplier_concentration
  | .recurring_emergency => _check_recurring_emergency
  | .payroll_anomaly => _check_payroll_anomaly
  | .unusual_timing => _check_unusual_timing
  | .duplicate_payments => _check_duplicate_payments

/-- The loop body of `run_all_rules` over a list of rule types: each
applicable detector runs inside `try/except`; an `error` outcome is logged
and dropped, a `None` outcome is dropped, and a result is kept only when
`not result.passed`.  The DataFrame is threaded through because detectors
mutate it in place. -/
def runRules (th : Thresholds) (t : String) :
    List RuleType → DataFrame → List RuleResult × DataFrame
  | [], df => ([], df)
  | rt :: rest, df =>
    if isApplicable rt t then
      match (runDetector rt th df).1 with
      | .res r =>
        if r.passed then runRules th t rest (runDetector rt th df).2
        else
          (r :: (runRules th t rest (runDetector rt th df).2).1,
            (runRules th t rest (runDetector rt th df).2).2)
      | _ => runRules th t rest (runDetector rt th df).2
    else runRules th t rest df

/-- Embeds `BusinessRulesEngine.run_all_rules`.  The second component is the input
DataFrame after the detectors' in-place column assignments. -/
def run_all_rules (th : Thresholds) (df : DataFrame) (t : String) :
    List RuleResult × DataFrame :=
  runRules th t ruleOrder df

/-- The `Alert` pydantic model of `src/models/schemas.py` (the optional
investigation fields, never set by the engine, are omitted). -/
structure Alert where
  id : String
  rule_type : String
  title : String
  description : String
  risk_score : Int
  affected_records : List String
  created_at : Timestamp
  is_investigated : Bool
deriving DecidableEq, Repr

/-- The Alert built for one failing result in `create_alerts_from_results`.
`now` is the `datetime.now()` of the call and `nowStr` its
`strftime("%Y%m%d_%H%M%S")` rendering (calendar formatting is outside the
model). -/
def mkAlert (now : Timestamp) (nowStr : String) (r : RuleResult) : Alert :=
  { id := r.rule_type.value ++ "_" ++ nowStr
    rule_type := r.rule_type.value
    title := "Anomalia Detectada: " ++ r.rule_type.humanCased
    description := r.message
    risk_score := r.score
    affected_records := r.affected_records
    created_at := now
    is_investigated := false }

/-- Embeds `BusinessRulesEngine.create_alerts_from_results`.  Constructing an
`Alert` validates `risk_score` against `Field(..., ge=1, le=10)`; a score
outside 1..10 raises a pydantic `ValidationError`, modelled as `.error`. -/
def create_alerts_from_results (results : List RuleResult) (now : Timestamp)
    (nowStr : String) : Except Unit (List Alert) :=
  match results with
  | [] => .ok []
  | r :: rest =>
    if r.passed then create_alerts_from_results rest now nowStr
    else if 1 ≤ r.score ∧ r.score ≤ 10 then
      match create_alerts_from_results rest now nowStr with
      | .ok l => .ok (mkAlert now nowStr r :: l)
      | .error e => .error e
    else .error ()

/-- Projection of an Alert onto the fields that must agree across two
materializations of the same results (everything except `id` and
`created_at`). -/
def alertCore (a : Alert) : String × String × String × Int × List String × Bool :=
  (a.rule_type, a.title, a.description, a.risk_score, a.affected_records,
    a.is_investigated)

/-- A row with every field defaulted; concrete examples override the fields
their dataset type carries. -/
def row0 : Row :=
  { rid := "", date := ⟨0, 0⟩, amount := 0, supplier := "", description := ""
    unit_price := 0, quantity := 0, price_mean := 0, is_emergency := false
    employee_id := "", name := "", position := "", total_payment := 0 }

/-- One expense record priced 30 % above its market reference (threshold
25 %): flagged, but `min(10, int(1/10) + int(30/50)) = 0`. -/
def dfScoreZero : DataFrame :=
  { cols := [.unit_price, .price_mean, .description]
    rows := [{ row0 with rid := "r1", unit_price := 130, price_mean := 100 }] }

/-- The result `_check_overpricing` produces on `dfScoreZero`: failing with
score 0. -/
def scoreZeroResult : RuleResult :=
  { rule_type := .overpricing, passed := false, score := 0
    message := "Found 1 items with prices 30% above market average"
    affected_records := ["r1"] }

/-- An expense frame with `supplier` and `amount` but no `date` column:
`_check_split_orders` raises KeyError on `df['date']`. -/
def dfNoDate : DataFrame :=
  { cols := [.supplier, .amount, .unit_price, .price_mean, .description]
    rows := [{ row0 with
      rid := "e1", supplier := "S", amount := 1, unit_price := 1, price_mean := 100 }] }

/-- The one result `run_all_rules` collects on `dfNoDate` (the
supplier-concentration detector fires; every other applicable detector
passes, abstains, or errors). -/
def dfNoDateConcResult : RuleResult :=
  { rule_type := .supplier_concentration, passed := false, score := 10
    message := "High supplier concentration detected: top supplier has 100% of total spending"
    affected_records := ["e1"] }

/-- A minimal despesas frame used to exhibit the in-place column
mutations. -/
def dfMut : DataFrame :=
  { cols := [.supplier, .amount, .date]
    rows := [{ row0 with
      rid := "m1", supplier := "S", amount := 10, date := ⟨100, 10⟩ }] }

/-- The payroll example of the specification: one position group of five
with payments [5000, 5100, 4900, 5050, 20000]. -/
def dfPayroll5 : DataFrame :=
  { cols := [.employee_id, .name, .position, .total_payment]
    rows := [
      { row0 with
        rid := "E1", employee_id := "1", name := "a", position := "P", total_payment := 5000 },
      { row0 with
        rid := "E2", employee_id := "2", name := "b", position := "P", total_payment := 5100 },
      { row0 with
        rid := "E3", employee_id := "3", name := "c", position := "P", total_payment := 4900 },
      { row0 with
        rid := "E4", employee_id := "4", name := "d", position := "P", total_payment := 5050 },
      { row0 with
        rid := "E5", employee_id := "5", name := "e", position := "P", total_payment := 20000 }] }

/-- A payroll position group with group mean 0 (payments
[5, -1, -1, -1, -1, -1]): the sample variance is 6, so the first record is
more than two standard deviations out (25 > 24), and its relative
deviation divides by the zero mean. -/
def dfPayrollZeroMean : DataFrame :=
  { cols := [.employee_id, .name, .position, .total_payment]
    rows := [
      { row0 with rid := "Z1", position := "G", total_payment := 5 },
      { row0 with rid := "Z2", position := "G", total_payment := -1 },
      { row0 with rid := "Z3", position := "G", total_payment := -1 },
      { row0 with rid := "Z4", position := "G", total_payment := -1 },
      { row0 with rid := "Z5", position := "G", total_payment := -1 },
      { row0 with rid := "Z6", position := "G", total_payment := -1 }] }

/-- Supplier "A": three records of 3000 on the same calendar day. -/
def dfSplitSameDay : DataFrame :=
  { cols := [.supplier, .amount, .date]
    rows := [
      { row0 with rid := "a1", supplier := "A", amount := 3000, date := ⟨100, 10⟩ },
      { row0 with rid := "a2", supplier := "A", amount := 3000, date := ⟨100, 11⟩ },
      { row0 with rid := "a3", supplier := "A", amount := 3000, date := ⟨100, 12⟩ }] }

/-- Supplier "B": the same three amounts on three distinct days. -/
def dfSplitSpread : DataFrame :=
  { cols := [.supplier, .amount, .date]
    rows := [
      { row0 with rid := "b1", supplier := "B", amount := 3000, date := ⟨100, 10⟩ },
      { row0 with rid := "b2", supplier := "B", amount := 3000, date := ⟨101, 10⟩ },
      { row0 with rid := "b3", supplier := "B", amount := 3000, date := ⟨102, 10⟩ }] }

/-- The overpricing example of the specification: `price_mean = 100` twice,
`unit_price = 250` and `105`, threshold 25 %. -/
def dfOverpricing2 : DataFrame :=
  { cols := [.unit_price, .price_mean, .description]
    rows := [
      { row0 with rid := "r1", unit_price := 250, price_mean := 100 },
      { row0 with rid := "r2", unit_price := 105, price_mean := 100 }] }

/-- The result `_check_overpricing` produces on `dfOverpricing2`. -/
def overpricing2Result : RuleResult :=
  { rule_type := .overpricing, passed := false, score := 3
    message := "Found 1 items with prices 150% above market average"
    affected_records := ["r1"] }

/-- A frame with `amount` and `date` columns (two of the three duplicate-key
fields) but no `supplier`, holding two identical records. -/
def dfDupNoSupplier : DataFrame :=
  { cols := [.amount, .date]
    rows := [
      { row0 with rid := "d1", amount := 500, date := ⟨200, 0⟩ },
      { row0 with rid := "d2", amount := 500, date := ⟨200, 0⟩ }] }

/-- The duplicate example of the specification: two records identical in
`(supplier = "X", amount = 500, date = 2024-01-10)` plus a third with
`amount = 501`. -/
def dfDupPair : DataFrame :=
  { cols := [.supplier, .amount, .date]
    rows := [
      { row0 with rid := "d1", supplier := "X", amount := 500, date := ⟨19732, 0⟩ },
      { row0 with rid := "d2", supplier := "X", amount := 500, date := ⟨19732, 0⟩ },
      { row0 with rid := "d3", supplier := "X", amount := 501, date := ⟨19732, 0⟩ }] }

/-- The result `_check_duplicate_payments` produces on `dfDupPair`. -/
def dupPairResult : RuleResult :=
  { rule_type := .duplicate_payments, passed := false, score := 1
    message := "Found 1 sets of potential duplicate payments involving 2 records"
    affected_records := ["d1", "d2"] }

/-- A failing rule result with a valid score, as the materializer receives
them. -/
def failingResult : RuleResult :=
  { rule_type := .overpricing, passed := false, score := 5, message := "m"
    affected_records := ["x"] }

/-- A frame whose supplier-wise total spending is zero. -/
def dfZeroSpend : DataFrame :=
  { cols := [.supplier, .amount]
    rows := [{ row0 with rid := "s1", supplier := "S", amount := 0 }] }

/-- The despesas schema of §3 of the specification (the fields the ETL
collaborator supplies for expense records). -/
def despesasCols : List Col :=
  [.date, .amount, .supplier, .description, .unit_price, .quantity,
    .price_mean, .is_emergency]

/-! Helper lemmas about the grouping combinators and the dispatcher. -/

theorem mem_dedupFirstAux {α : Type} [DecidableEq α] (l : List α) :
    ∀ (seen : List α) (a : α),
      a ∈ dedupFirstAux seen l ↔ a ∈ l ∧ a ∉ seen := by
  induction l with
  | nil => intro seen a; simp [dedupFirstAux]
  | cons x xs ih =>
    intro seen a
    simp only [dedupFirstAux]
    by_cases hx : x ∈ seen
    · rw [if_pos hx, ih]
      constructor
      · rintro ⟨h1, h2⟩; exact ⟨List.mem_cons_of_mem _ h1, h2⟩
      · rintro ⟨h1, h2⟩
        rcases List.mem_cons.mp h1 with rfl | h1
        · exact absurd hx h2
        · exact ⟨h1, h2⟩
    · rw [if_neg hx]
      constructor
      · intro h
        rcases List.mem_cons.mp h with rfl | h
        · exact ⟨List.mem_cons_self _ _, hx⟩
        · obtain ⟨h1, h2⟩ := (ih _ _).mp h
          exact ⟨List.mem_cons_of_mem _ h1,
            fun hs => h2 (List.mem_cons_of_mem _ hs)⟩
      · rintro ⟨h1, h2⟩
        rcases List.mem_cons.mp h1 with rfl | h1
        · exact List.mem_cons_self _ _
        · by_cases hax : a = x
          · subst hax; exact List.mem_cons_self _ _
          · refine List.mem_cons_of_mem _ ((ih _ _).mpr ⟨h1, ?_⟩)
            intro hs
            rcases List.mem_cons.mp hs with h | h
            · exact hax h
            · exact h2 h

theorem mem_dedupFirst {α : Type} [DecidableEq α] (l : List α) (a : α) :
    a ∈ dedupFirst l ↔ a ∈ l := by
  simp [dedupFirst, mem_dedupFirstAux]

theorem mem_groupsBy {κ : Type} [DecidableEq κ] (key : Row → κ)
    (rows : List Row) (g : κ × List Row) :
    g ∈ groupsBy key rows ↔
      (∃ r ∈ rows, key r = g.1) ∧
        g.2 = rows.filter (fun r => decide (key r = g.1)) := by
  constructor
  · intro h
    unfold groupsBy at h
    obtain ⟨k, hk, heq⟩ := List.mem_map.mp h
    subst heq
    exact ⟨List.mem_map.mp ((mem_dedupFirst _ _).mp hk), rfl⟩
  · rintro ⟨h1, h2⟩
    unfold groupsBy
    exact List.mem_map.mpr ⟨g.1,
      (mem_dedupFirst _ _).mpr (List.mem_map.mpr h1), Prod.ext rfl h2.symm⟩

theorem mem_groupsBy_group_nonempty {κ : Type} [DecidableEq κ]
    (key : Row → κ) (rows : List Row) (g : κ × List Row)
    (h : g ∈ groupsBy key rows) : g.2 ≠ [] := by
  obtain ⟨⟨r, hr, hk⟩, h2⟩ := (mem_groupsBy key rows g).mp h
  have hmem : r ∈ g.2 := by
    rw [h2, List.mem_filter]
    exact ⟨hr, by simp [hk]⟩
  exact fun he => by simp [he] at hmem

theorem addCol_rows (df : DataFrame) (c : Col) :
    (df.addCol c).rows = df.rows := by
  unfold DataFrame.addCol; split <;> rfl

theorem addCol_cols (df : DataFrame) (c : Col) :
    (df.addCol c).cols = df.cols ∨ (df.addCol c).cols = df.cols ++ [c] := by
  unfold DataFrame.addCol; split
  · exact Or.inl rfl
  · exact Or.inr rfl

/-- Every detector leaves the rows of the frame unchanged and can only
append the three derived helper columns. -/
theorem runDetector_frame (rt : RuleType) (th : Thresholds) (df : DataFrame) :
    (runDetector rt th df).2.rows = df.rows ∧
    ∃ e, (runDetector rt th df).2.cols = df.cols ++ e ∧
      ∀ c ∈ e, c = Col.date_only ∨ c = Col.hour ∨ c = Col.day_of_week := by
  have base : df.rows = df.rows ∧ ∃ e, df.cols = df.cols ++ e ∧
      ∀ c ∈ e, c = Col.date_only ∨ c = Col.hour ∨ c = Col.day_of_week :=
    ⟨rfl, [], by simp, by simp⟩
  have one : ∀ c, (c = Col.date_only ∨ c = Col.hour ∨ c = Col.day_of_week) →
      (df.addCol c).rows = df.rows ∧ ∃ e, (df.addCol c).cols = df.cols ++ e ∧
        ∀ x ∈ e, x = Col.date_only ∨ x = Col.hour ∨ x = Col.day_of_week := by
    intro c hc
    refine ⟨addCol_rows df c, ?_⟩
    rcases addCol_cols df c with h | h
    · exact ⟨[], by simp [h], by simp⟩
    · exact ⟨[c], by simp [h], by simpa using hc⟩
  have two : ∀ c c2, (c = Col.date_only ∨ c = Col.hour ∨ c = Col.day_of_week) →
      (c2 = Col.date_only ∨ c2 = Col.hour ∨ c2 = Col.day_of_week) →
      ((df.addCol c).addCol c2).rows = df.rows ∧
      ∃ e, ((df.addCol c).addCol c2).cols = df.cols ++ e ∧
        ∀ x ∈ e, x = Col.date_only ∨ x = Col.hour ∨ x = Col.day_of_week := by
    intro c c2 hc hc2
    obtain ⟨h1, e1, he1, hm1⟩ := one c hc
    refine ⟨by rw [addCol_rows, h1], ?_⟩
    rcases addCol_cols (df.addCol c) c2 with h | h
    · exact ⟨e1, by rw [h, he1], hm1⟩
    · refine ⟨e1 ++ [c2], by rw [h, he1, List.append_assoc], ?_⟩
      intro x hx
      rcases List.mem_append.mp hx with hx | hx
      · exact hm1 x hx
      · simp only [List.mem_singleton] at hx; subst hx; exact hc2
  cases rt
  case overpricing =>
    simp only [runDetector]
    unfold _check_overpricing
    dsimp only
    repeat' split
    all_goals exact base
  case split_orders =>
    simp only [runDetector]
    unfold _check_split_orders
    dsimp only
    repeat' split
    all_goals first
      | exact base
      | exact one Col.date_only (Or.inl rfl)
  case supplier_concentration =>
    simp only [runDetector]
    unfold _check_supplier_concentration
    dsimp only
    repeat' split
    all_goals exact base
  case recurring_emergency =>
    simp only [runDetector]
    unfold _check_recurring_emergency
    dsimp only
    repeat' split
    all_goals exact base
  case payroll_anomaly =>
    simp only [runDetector]
    unfold _check_payroll_anomaly
    dsimp only
    repeat' split
    all_goals exact base
  case unusual_timing =>
    simp only [runDetector]
    unfold _check_unusual_timing
    dsimp only
    repeat' split
    all_goals first
      | exact base
      | exact two Col.hour Col.day_of_week (Or.inr (Or.inl rfl))
          (Or.inr (Or.inr rfl))
  case duplicate_payments =>
    simp only [runDetector]
    unfold _check_duplicate_payments
    dsimp only
    repeat' split
    all_goals exact base

/-- Unfolding `runRules` when the head rule is not applicable. -/
theorem runRules_cons_notapp (th : Thresholds) (t : String) (rt : RuleType)
    (rest : List RuleType) (df : DataFrame)
    (ha : isApplicable rt t = false) :
    runRules th t (rt :: rest) df = runRules th t rest df := by
  simp [runRules, ha]

/-- Unfolding `runRules` when the head rule returns `None`. -/
theorem runRules_cons_none (th : Thresholds) (t : String) (rt : RuleType)
    (rest : List RuleType) (df : DataFrame)
    (ha : isApplicable rt t = true)
    (h : (runDetector rt th df).1 = DetOutcome.none) :
    runRules th t (rt :: rest) df =
      runRules th t rest (runDetector rt th df).2 := by
  simp [runRules, ha, h]

/-- Unfolding `runRules` when the head rule returns a passing result. -/
theorem runRules_cons_passed (th : Thresholds) (t : String) (rt : RuleType)
    (rest : List RuleType) (df : DataFrame) (r : RuleResult)
    (ha : isApplicable rt t = true)
    (h : (runDetector rt th df).1 = DetOutcome.res r)
    (hp : r.passed = true) :
    runRules th t (rt :: rest) df =
      runRules th t rest (runDetector rt th df).2 := by
  simp [runRules, ha, h, hp]

/-- Unfolding `runRules` when the head rule returns a failing result. -/
theorem runRules_cons_failed (th : Thresholds) (t : String) (rt : RuleType)
    (rest : List RuleType) (df : DataFrame) (r : RuleResult)
    (ha : isApplicable rt t = true)
    (h : (runDetector rt th df).1 = DetOutcome.res r)
    (hp : r.passed = false) :
    runRules th t (rt :: rest) df =
      (r :: (runRules th t rest (runDetector rt th df).2).1,
        (runRules th t rest (runDetector rt th df).2).2) := by
  simp [runRules, ha, h, hp]

/-- An erroring detector is skipped: the dispatch of `rt :: rest` equals the
dispatch of `rest` on the frame `rt` left behind, so the remaining
detectors still run and the exception never escapes. -/
theorem runRules_error_skip (th : Thresholds) (t : String) (rt : RuleType)
    (rest : List RuleType) (df : DataFrame)
    (ha : isApplicable rt t = true)
    (he : (runDetector rt th df).1 = DetOutcome.error) :
    runRules th t (rt :: rest) df =
      runRules th t rest (runDetector rt th df).2 := by
  simp [runRules, ha, he]

/-- Dispatching a list of rules leaves the rows unchanged and can only
append derived helper columns. -/
theorem runRules_frame (th : Thresholds) (t : String) (rts : List RuleType) :
    ∀ df : DataFrame,
      (runRules th t rts df).2.rows = df.rows ∧
      ∃ e, (runRules th t rts df).2.cols = df.cols ++ e ∧
        ∀ c ∈ e, c = Col.date_only ∨ c = Col.hour ∨ c = Col.day_of_week := by
  induction rts with
  | nil =>
    intro df
    refine ⟨rfl, [], ?_, by simp⟩
    simp [runRules]
  | cons rt rest ih =>
    intro df
    obtain ⟨h1, e1, he1, hm1⟩ := runDetector_frame rt th df
    obtain ⟨h2, e2, he2, hm2⟩ := ih (runDetector rt th df).2
    have comp : (runRules th t rest (runDetector rt th df).2).2.rows = df.rows ∧
        ∃ e, (runRules th t rest (runDetector rt th df).2).2.cols = df.cols ++ e ∧
          ∀ c ∈ e, c = Col.date_only ∨ c = Col.hour ∨ c = Col.day_of_week := by
      refine ⟨by rw [h2, h1], e1 ++ e2, by rw [he2, he1, List.append_assoc], ?_⟩
      intro c hc
      rcases List.mem_append.mp hc with hc | hc
      · exact hm1 c hc
      · exact hm2 c hc
    cases ha : isApplicable rt t with
    | false => rw [runRules_cons_notapp th t rt rest df ha]; exact ih df
    | true =>
      cases hout : (runDetector rt th df).1 with
      | error => rw [runRules_error_skip th t rt rest df ha hout]; exact comp
      | none => rw [runRules_cons_none th t rt rest df ha hout]; exact comp
      | res r =>
        cases hp : r.passed with
        | true => rw [runRules_cons_passed th t rt rest df r ha hout hp]; exact comp
        | false => rw [runRules_cons_failed th t rt rest df r ha hout hp]; exact comp

/-- Everything `runRules` collects is a failing result. -/
theorem mem_runRules_passed (th : Thresholds) (t : String) (rts : List RuleType) :
    ∀ (df : DataFrame) (r : RuleResult),
      r ∈ (runRules th t rts df).1 → r.passed = false := by
  induction rts with
  | nil => intro df r h; simp [runRules] at h
  | cons rt rest ih =>
    intro df r h
    cases ha : isApplicable rt t with
    | false =>
      rw [runRules_cons_notapp th t rt rest df ha] at h
      exact ih df r h
    | true =>
      cases hout : (runDetector rt th df).1 with
      | error =>
        rw [runRules_error_skip th t rt rest df ha hout] at h
        exact ih _ r h
      | none =>
        rw [runRules_cons_none th t rt rest df ha hout] at h
        exact ih _ r h
      | res r2 =>
        cases hp : r2.passed with
        | true =>
          rw [runRules_cons_passed th t rt rest df r2 ha hout hp] at h
          exact ih _ r h
        | false =>
          rw [runRules_cons_failed th t rt rest df r2 ha hout hp] at h
          rcases List.mem_cons.mp h with rfl | h
          · exact hp
          · exact ih _ r h

/-- On a frame with no rows, every detector abstains or reports a passing
result — except `_check_split_orders`, which can only fail (KeyError on
`df['date']`) when the `date` column is missing. -/
theorem runDetector_empty (rt : RuleType) (th : Thresholds) (df : DataFrame)
    (h : df.rows = []) :
    ((runDetector rt th df).1 = DetOutcome.none ∨
      ∃ r, (runDetector rt th df).1 = DetOutcome.res r ∧ r.passed = true) ∨
    ((runDetector rt th df).1 = DetOutcome.error ∧ Col.date ∉ df.cols) := by
  cases rt
  case overpricing =>
    simp only [runDetector]
    unfold _check_overpricing
    dsimp only
    have hf : overpricedRows th df = [] := by simp [overpricedRows, h]
    rw [hf]
    split
    · exact Or.inl (Or.inr ⟨_, rfl, rfl⟩)
    · exact Or.inl (Or.inl rfl)
  case split_orders =>
    simp only [runDetector]
    unfold _check_split_orders
    dsimp only
    have hs : splitSuspicious th (df.addCol Col.date_only).rows = [] := by
      simp [splitSuspicious, groupsBy, dedupFirst, dedupFirstAux, addCol_rows, h]
    split
    · split
      · rw [hs]
        exact Or.inl (Or.inr ⟨_, rfl, rfl⟩)
      · next hdate => exact Or.inr ⟨rfl, hdate⟩
    · exact Or.inl (Or.inl rfl)
  case supplier_concentration =>
    simp only [runDetector]
    unfold _check_supplier_concentration
    dsimp only
    have ht : totalSpending df.rows = 0 := by
      simp [totalSpending, supplierTotals, groupsBy, dedupFirst, dedupFirstAux, h]
    repeat' split
    all_goals first
      | exact Or.inl (Or.inl rfl)
      | exact Or.inl (Or.inr ⟨_, rfl, rfl⟩)
      | exact absurd ht (by assumption)
  case recurring_emergency =>
    simp only [runDetector]
    unfold _check_recurring_emergency
    dsimp only
    split
    · split
      · exact Or.inl (Or.inl rfl)
      · next hne => exact absurd (by simp [h]) hne
    · exact Or.inl (Or.inl rfl)
  case payroll_anomaly =>
    simp only [runDetector]
    unfold _check_payroll_anomaly
    dsimp only
    have hp : payrollAnomalies th df.rows = [] := by
      simp [payrollAnomalies, groupsBy, dedupFirst, dedupFirstAux, h]
    rw [hp]
    split
    · exact Or.inl (Or.inr ⟨_, rfl, rfl⟩)
    · exact Or.inl (Or.inl rfl)
  case unusual_timing =>
    simp only [runDetector]
    unfold _check_unusual_timing
    dsimp only
    have hf : ((df.addCol Col.hour).addCol Col.day_of_week).rows.filter unusualRow = [] := by
      simp [addCol_rows, h]
    split
    · rw [hf]
      exact Or.inl (Or.inr ⟨_, rfl, rfl⟩)
    · exact Or.inl (Or.inl rfl)
  case duplicate_payments =>
    simp only [runDetector]
    unfold _check_duplicate_payments
    dsimp only
    have hd : dupRows df = [] := by simp [dupRows, h]
    split
    · split
      · exact Or.inl (Or.inl rfl)
      · rw [hd]
        exact Or.inl (Or.inr ⟨_, rfl, rfl⟩)
    · exact Or.inl (Or.inl rfl)

/-- Dispatching any rule list over a frame with no rows collects nothing. -/
theorem runRules_empty (th : Thresholds) (t : String) (rts : List RuleType) :
    ∀ df : DataFrame, df.rows = [] → (runRules th t rts df).1 = [] := by
  induction rts with
  | nil => intro df h; simp [runRules]
  | cons rt rest ih =>
    intro df h
    have hnext : (runRules th t rest (runDetector rt th df).2).1 = [] :=
      ih _ (by rw [(runDetector_frame rt th df).1, h])
    cases ha : isApplicable rt t with
    | false => rw [runRules_cons_notapp th t rt rest df ha]; exact ih df h
    | true =>
      rcases runDetector_empty rt th df h with (hnone | ⟨r, hres, hpass⟩) | ⟨herr, _⟩
      · rw [runRules_cons_none th t rt rest df ha hnone]; exact hnext
      · rw [runRules_cons_passed th t rt rest df r ha hres hpass]; exact hnext
      · rw [runRules_error_skip th t rt rest df ha herr]; exact hnext

/-! The claim theorems. -/

unseal Rat.add Rat.mul Rat.inv Rat.sub in
/-- C1: the claim states that every returned RuleResult with
`passed = false` has `1 ≤ score ≤ 10` and non-empty `affected_records`.
The code violates the lower bound: one expense record priced 30 % above its
reference (threshold 25 %) yields a failing overpricing result with
`score = min(10, int(1/10) + int(30/50)) = 0`, and feeding that result to
the alert materializer violates the repository's own
`Alert.risk_score = Field(..., ge=1, le=10)` validation (a pydantic
`ValidationError`). -/
theorem overpricing_failing_score_zero :
    (_check_overpricing exampleThresholds dfScoreZero).1 =
      DetOutcome.res scoreZeroResult ∧
    scoreZeroResult.passed = false ∧ scoreZeroResult.score = 0 ∧
    scoreZeroResult.affected_records ≠ [] ∧
    create_alerts_from_results [scoreZeroResult] ⟨0, 0⟩ "20240101_000000" =
      Except.error () := by
  refine ⟨by decide, rfl, rfl, by decide, rfl⟩

/-- C2: `run_all_rules` returns only failing results, and an erroring
detector is caught at the dispatcher boundary: it contributes nothing while
the remaining rules still run, so no exception escapes (the dispatcher is a
total function). -/
theorem dispatcher_failing_only_and_isolated (th : Thresholds)
    (df : DataFrame) (t : String) (rt : RuleType) (rest : List RuleType) :
    (∀ r ∈ (run_all_rules th df t).1, r.passed = false) ∧
    (isApplicable rt t = true →
      (runDetector rt th df).1 = DetOutcome.error →
      runRules th t (rt :: rest) df =
        runRules th t rest (runDetector rt th df).2) :=
  ⟨fun r hr => mem_runRules_passed th t ruleOrder df r hr,
    fun ha he => runRules_error_skip th t rt rest df ha he⟩

unseal Rat.add Rat.mul Rat.inv Rat.sub in
/-- C2 witness: on a despesas frame with `supplier`/`amount` but no `date`
column, `_check_split_orders` errors (KeyError), the dispatch of
`[split_orders, unusual_timing]` equals the dispatch of the remaining rule
alone, and the one collected result is failing. -/
theorem dispatcher_isolated_witness :
    isApplicable RuleType.split_orders "despesas" = true ∧
    (runDetector RuleType.split_orders exampleThresholds dfNoDate).1 =
      DetOutcome.error ∧
    runRules exampleThresholds "despesas"
        [RuleType.split_orders, RuleType.unusual_timing] dfNoDate =
      runRules exampleThresholds "despesas" [RuleType.unusual_timing]
        (runDetector RuleType.split_orders exampleThresholds dfNoDate).2 ∧
    dfNoDateConcResult.passed = false :=
  ⟨by decide, by decide,
    (dispatcher_failing_only_and_isolated exampleThresholds dfNoDate
      "despesas" RuleType.split_orders [RuleType.unusual_timing]).2
      (by decide) (by decide),
    (dispatcher_failing_only_and_isolated exampleThresholds dfNoDate
      "despesas" RuleType.split_orders [RuleType.unusual_timing]).1
      dfNoDateConcResult (by decide)⟩

unseal Rat.add Rat.mul Rat.inv Rat.sub in
/-- C3 counterexample: the claim states the engine never mutates the input
frame, but `run_all_rules` on a minimal despesas frame changes the column
set — `df['date_only']`, `df['hour']` and `df['day_of_week']` are assigned
in place by the split-orders and unusual-timing detectors. -/
theorem run_all_rules_mutates_columns :
    (run_all_rules exampleThresholds dfMut "despesas").2.cols ≠ dfMut.cols := by
  decide

/-- C3 (amended): the engine never changes the rows (hence no stored value
and no record), but the column set may be extended in place by the derived
helper columns `date_only`, `hour`, `day_of_week`. -/
theorem run_all_rules_preserves_rows_extends_cols (th : Thresholds)
    (df : DataFrame) (t : String) :
    (run_all_rules th df t).2.rows = df.rows ∧
    ∃ e, (run_all_rules th df t).2.cols = df.cols ++ e ∧
      ∀ c ∈ e, c = Col.date_only ∨ c = Col.hour ∨ c = Col.day_of_week :=
  runRules_frame th t ruleOrder df

unseal Rat.add Rat.mul Rat.inv Rat.sub in
/-- C4 counterexample: the claim states the payroll detector flags exactly
the 20000 record of the group [5000, 5100, 4900, 5050, 20000]
(threshold 0.30), but the detector flags nothing on that input. -/
theorem payroll_example_flags_nothing_not_E5 :
    ¬ ((_check_payroll_anomaly exampleThresholds dfPayroll5).1.result.map
        (fun r => r.affected_records) = some ["E5"]) := by
  decide

unseal Rat.add Rat.mul Rat.inv Rat.sub in
/-- C4 (amended): on that group the detector reports a passing result with
no affected records: the sample variance is 44930500, and the 20000
record's squared deviation 11990² = 143760100 does not exceed
4 × variance = 179722000, i.e. |20000 − mean| ≤ 2 standard deviations, so
the two-sided outlier condition already fails (a single outlier in a group
of five inflates the standard deviation past its own deviation). -/
theorem payroll_example_passes :
    (_check_payroll_anomaly exampleThresholds dfPayroll5).1.result.map
        (fun r => (r.passed, r.affected_records)) =
      some (true, ([] : List String)) ∧
    groupVar dfPayroll5.rows = 44930500 ∧
    (20000 - groupMean dfPayroll5.rows) ^ 2 ≤ 4 * groupVar dfPayroll5.rows := by
  exact ⟨by decide, by decide, by decide⟩

unseal Rat.add Rat.mul Rat.inv Rat.sub in
/-- C5 counterexample: the claim states a payroll position group with mean
payment 0 contributes no anomaly, but for payments [5, -1, -1, -1, -1, -1]
(mean 0, sample variance 6) the first record is a 2σ outlier and the numpy
relative deviation |5 − 0| / 0 = +inf exceeds the threshold, so the
detector returns a failing result flagging it. -/
theorem payroll_zero_mean_flags_anomaly :
    groupMean dfPayrollZeroMean.rows = 0 ∧
    (_check_payroll_anomaly exampleThresholds dfPayrollZeroMean).1.result.map
      (fun r => (r.passed, r.affected_records)) = some (false, ["Z1"]) := by
  exact ⟨by decide, by decide⟩

/-- C5 (amended): zero denominators are guarded for overpricing (a record
with `price_mean = 0` is never flagged, the mask requires `price_mean > 0`)
and for supplier concentration (total spend 0 returns no result), but a
payroll group whose mean is 0 still contributes its 2σ outliers: the
deviation test divides by the zero mean, numpy yields +inf, and +inf
exceeds every threshold. -/
theorem zero_denominator_guards (th : Thresholds) (df : DataFrame)
    (x thr : Rat) :
    (∀ r ∈ overpricedRows th df, 0 < r.price_mean) ∧
    (totalSpending df.rows = 0 →
      (_check_supplier_concentration th df).1 = DetOutcome.none) ∧
    payrollDevFlag x 0 thr = true := by
  refine ⟨?_, ?_, by simp [payrollDevFlag]⟩
  · intro r hr
    have hp := (List.mem_filter.mp hr).2
    simp only [decide_eq_true_eq] at hp
    exact hp.2.1
  · intro h0
    unfold _check_supplier_concentration
    dsimp only
    repeat' split
    all_goals first
      | rfl
      | exact absurd h0 (by assumption)


unseal Rat.add Rat.mul Rat.inv Rat.sub in
/-- C5 witness: a frame whose total spend is 0 gets no concentration
result, and the zero-mean deviation flag fires. -/
theorem zero_denominator_guards_witness :
    0 < (dfScoreZero.rows.headD row0).price_mean ∧
    totalSpending dfZeroSpend.rows = 0 ∧
    (_check_supplier_concentration exampleThresholds dfZeroSpend).1 =
      DetOutcome.none ∧
    payrollDevFlag 5 0 (3/10) = true :=
  ⟨(zero_denominator_guards exampleThresholds dfScoreZero 5 (3/10)).1
      (dfScoreZero.rows.headD row0) (by decide),
    by decide,
    (zero_denominator_guards exampleThresholds dfZeroSpend 5 (3/10)).2.1
      (by decide),
    (zero_denominator_guards exampleThresholds dfZeroSpend 5 (3/10)).2.2⟩

/-- Membership in the overpricing mask, spelled out. -/
theorem mem_overpricedRows (th : Thresholds) (df : DataFrame) (x : Row) :
    x ∈ overpricedRows th df ↔ x ∈ df.rows ∧
      x.price_mean * (1 + th.overpricing_percentage / 100) < x.unit_price ∧
      0 < x.price_mean ∧ 0 < x.unit_price := by
  unfold overpricedRows
  rw [List.mem_filter]
  simp [decide_eq_true_eq]

unseal Rat.add Rat.mul Rat.inv Rat.sub in
/-- C6: a `(supplier, calendar-day)` group is suspicious exactly when it has
more than one record, more than one individual amount below the threshold,
and a summed amount above the threshold; with threshold 8000, three same-day
records of 3000 are flagged while the same amounts on three distinct days
are not. -/
theorem split_orders_group_characterization (th : Thresholds)
    (rows : List Row) (g : (String × Int) × List Row) :
    (g ∈ splitSuspicious th rows ↔
      g ∈ groupsBy splitKey rows ∧
        (1 < g.2.length ∧
          1 < (g.2.filter
            (fun r => decide (r.amount < th.split_order_threshold))).length ∧
          th.split_order_threshold < sumAmounts g.2)) ∧
    ((_check_split_orders exampleThresholds dfSplitSameDay).1.result.map
      (fun r => (r.passed, r.affected_records)) =
        some (false, ["a1", "a2", "a3"])) ∧
    ((_check_split_orders exampleThresholds dfSplitSpread).1.result.map
      (fun r => (r.passed, r.affected_records)) =
        some (true, ([] : List String))) := by
  refine ⟨?_, by decide, by decide⟩
  unfold splitSuspicious
  rw [List.mem_filter]
  simp only [Bool.and_eq_true, decide_eq_true_eq]

unseal Rat.add Rat.mul Rat.inv Rat.sub in
/-- C7: whenever the overpricing detector returns a result, a record id is
in `affected_records` exactly when its row satisfies
`unit_price > price_mean * (1 + overpricing_percentage/100)` with both
prices positive; on the two-record example only the 150 %-overpriced record
is flagged and the score is 3 > 0. -/
theorem overpricing_membership (th : Thresholds) (df : DataFrame)
    (r : RuleResult) :
    ((_check_overpricing th df).1 = DetOutcome.res r →
      ∀ s, s ∈ r.affected_records ↔
        ∃ x, x ∈ df.rows ∧ x.rid = s ∧
          x.price_mean * (1 + th.overpricing_percentage / 100) < x.unit_price ∧
          0 < x.price_mean ∧ 0 < x.unit_price) ∧
    ((_check_overpricing exampleThresholds dfOverpricing2).1.result.map
      (fun x => (x.passed, x.affected_records, x.score)) =
        some (false, ["r1"], (3 : Int))) := by
  refine ⟨?_, by decide⟩
  intro hres s
  unfold _check_overpricing at hres
  dsimp only at hres
  by_cases h1 : Col.unit_price ∈ df.cols ∧ Col.price_mean ∈ df.cols
  · rw [if_pos h1] at hres
    by_cases h2 : 0 < (overpricedRows th df).length
    · rw [if_pos h2] at hres
      by_cases h3 : Col.description ∈ df.cols
      · rw [if_pos h3] at hres
        dsimp only at hres
        injection hres with h
        subst h
        constructor
        · intro hs
          obtain ⟨x, hx, rfl⟩ := List.mem_map.mp hs
          obtain ⟨hxr, hc⟩ := (mem_overpricedRows th df x).mp hx
          exact ⟨x, hxr, rfl, hc⟩
        · rintro ⟨x, hxr, rfl, hc⟩
          exact List.mem_map.mpr
            ⟨x, (mem_overpricedRows th df x).mpr ⟨hxr, hc⟩, rfl⟩
      · rw [if_neg h3] at hres
        dsimp only at hres
        exact absurd hres (by simp)
    · rw [if_neg h2] at hres
      dsimp only at hres
      injection hres with h
      subst h
      constructor
      · intro hs
        exact absurd hs (List.not_mem_nil s)
      · rintro ⟨x, hxr, hrid, hc⟩
        have hmem : x ∈ overpricedRows th df :=
          (mem_overpricedRows th df x).mpr ⟨hxr, hc⟩
        exact absurd (List.length_pos.mpr (List.ne_nil_of_mem hmem)) h2
  · rw [if_neg h1] at hres
    dsimp only at hres
    exact absurd hres (by simp)

unseal Rat.add Rat.mul Rat.inv Rat.sub in
/-- C7 witness: the detector on the two-record example returns the concrete
failing result, and its single affected id satisfies the mask. -/
theorem overpricing_membership_witness :
    (_check_overpricing exampleThresholds dfOverpricing2).1 =
      DetOutcome.res overpricing2Result ∧
    ("r1" ∈ overpricing2Result.affected_records ↔
      ∃ x, x ∈ dfOverpricing2.rows ∧ x.rid = "r1" ∧
        x.price_mean * (1 + exampleThresholds.overpricing_percentage / 100) <
          x.unit_price ∧
        0 < x.price_mean ∧ 0 < x.unit_price) :=
  ⟨by decide,
    (overpricing_membership exampleThresholds dfOverpricing2
      overpricing2Result).1 (by decide) "r1"⟩

/-- C8 counterexample: the claim states the duplicate detector runs
whenever at least two of `(supplier, amount, date)` are present, but with
`amount` and `date` present (and two identical rows) it abstains, because
the code first requires both `amount` and `supplier`. -/
theorem duplicate_detector_abstains_with_two_fields :
    (_check_duplicate_payments exampleThresholds dfDupNoSupplier).1 =
      DetOutcome.none ∧
    Col.amount ∈ dfDupNoSupplier.cols ∧ Col.date ∈ dfDupNoSupplier.cols ∧
    1 < dfDupNoSupplier.rows.length := by
  exact ⟨by decide, by decide, by decide, by decide⟩

/-- C8 (amended): the detector abstains exactly when `supplier` or `amount`
is missing; otherwise it groups by whichever of `(supplier, amount, date)`
exist and reports precisely the rows whose composite key occurs more than
once, failing iff such a row exists. -/
theorem duplicate_detector_characterization (th : Thresholds)
    (df : DataFrame) (r : RuleResult) :
    ((_check_duplicate_payments th df).1 = DetOutcome.none ↔
      ¬(Col.amount ∈ df.cols ∧ Col.supplier ∈ df.cols)) ∧
    ((_check_duplicate_payments th df).1 = DetOutcome.res r →
      (r.passed = false ↔ dupRows df ≠ []) ∧
      r.affected_records = (dupRows df).map (·.rid)) := by
  by_cases hc : Col.amount ∈ df.cols ∧ Col.supplier ∈ df.cols
  · have hav : ¬ (([Col.supplier, Col.amount, Col.date].filter
        (fun c => decide (c ∈ df.cols))).length < 2) := by
      by_cases hd : Col.date ∈ df.cols
      · simp [List.filter_cons, hc.1, hc.2, hd]
      · simp [List.filter_cons, hc.1, hc.2, hd]
    constructor
    · constructor
      · intro hnone
        exfalso
        unfold _check_duplicate_payments at hnone
        dsimp only at hnone
        rw [if_pos hc, if_neg hav] at hnone
        by_cases h2 : 0 < (dupRows df).length
        · rw [if_pos h2] at hnone
          dsimp only at hnone
          exact DetOutcome.noConfusion hnone
        · rw [if_neg h2] at hnone
          dsimp only at hnone
          exact DetOutcome.noConfusion hnone
      · intro hn
        exact absurd hc hn
    · intro hres
      unfold _check_duplicate_payments at hres
      dsimp only at hres
      rw [if_pos hc, if_neg hav] at hres
      by_cases h2 : 0 < (dupRows df).length
      · rw [if_pos h2] at hres
        dsimp only at hres
        injection hres with h
        subst h
        exact ⟨⟨fun _ => List.length_pos.mp h2, fun _ => rfl⟩, rfl⟩
      · rw [if_neg h2] at hres
        dsimp only at hres
        injection hres with h
        subst h
        have hnil : dupRows df = [] :=
          List.length_eq_zero.mp (Nat.eq_zero_of_not_pos h2)
        refine ⟨⟨fun htf => absurd htf (by simp), fun hne => absurd hnil hne⟩, ?_⟩
        rw [hnil]
        rfl
  · have hnone : (_check_duplicate_payments th df).1 = DetOutcome.none := by
      unfold _check_duplicate_payments
      dsimp only
      rw [if_neg hc]
    constructor
    · exact ⟨fun _ => hc, fun _ => hnone⟩
    · intro hres
      rw [hnone] at hres
      exact DetOutcome.noConfusion hres

unseal Rat.add Rat.mul Rat.inv Rat.sub in
/-- C8 witness: on the specification's duplicate example (two identical
`(supplier, amount, date)` rows plus one near-miss), the detector returns
the concrete failing result whose affected ids are exactly the duplicated
rows. -/
theorem duplicate_detector_witness :
    (_check_duplicate_payments exampleThresholds dfDupPair).1 =
      DetOutcome.res dupPairResult ∧
    ((dupPairResult.passed = false ↔ dupRows dfDupPair ≠ []) ∧
      dupPairResult.affected_records = (dupRows dfDupPair).map (·.rid)) :=
  ⟨by decide,
    (duplicate_detector_characterization exampleThresholds dfDupPair
      dupPairResult).2 (by decide)⟩

/-- The materializer succeeds on results whose failing scores are all in
1..10, producing one Alert per failing result in order. -/
theorem create_alerts_ok (now : Timestamp) (s : String) :
    ∀ results : List RuleResult,
      (∀ r ∈ results, r.passed = false → 1 ≤ r.score ∧ r.score ≤ 10) →
      create_alerts_from_results results now s =
        Except.ok ((results.filter (fun r => !r.passed)).map (mkAlert now s)) := by
  intro results
  induction results with
  | nil => intro _; rfl
  | cons r rest ih =>
    intro hall
    have hrest : ∀ x ∈ rest, x.passed = false → 1 ≤ x.score ∧ x.score ≤ 10 :=
      fun x hx => hall x (List.mem_cons_of_mem r hx)
    cases hp : r.passed with
    | true =>
      simp only [create_alerts_from_results, hp, if_true]
      rw [ih hrest]
      simp [List.filter_cons, hp]
    | false =>
      have hs := hall r (List.mem_cons_self r rest) hp
      simp only [create_alerts_from_results, hp, Bool.false_eq_true, if_false]
      rw [if_pos hs, ih hrest]
      simp [List.filter_cons, hp]

/-- C9 counterexample: the Alert title the code produces is the Portuguese
"Anomalia Detectada: ...", not the claimed "Anomaly Detected: ...". -/
theorem alert_title_is_portuguese :
    create_alerts_from_results [failingResult] ⟨0, 0⟩ "20240101_120000" =
      Except.ok [mkAlert ⟨0, 0⟩ "20240101_120000" failingResult] ∧
    (mkAlert ⟨0, 0⟩ "20240101_120000" failingResult).title =
      "Anomalia Detectada: Overpricing" ∧
    (mkAlert ⟨0, 0⟩ "20240101_120000" failingResult).title ≠
      "Anomaly Detected: Overpricing" := by
  exact ⟨rfl, rfl, by decide⟩

/-- C9 (amended): provided every failing score is within 1..10 (otherwise
the `Alert.risk_score` validation raises), the materializer builds exactly
one Alert per failing result with `description = message`,
`risk_score = score`, the affected records copied, `is_investigated =
false`, the Portuguese title "Anomalia Detectada: {rule type, human-cased}"
and `id = ruleType + "_" + timestamp`; two materializations of the same
list agree on every field except `id` and `created_at`. -/
theorem alert_materializer (results : List RuleResult) (now now2 : Timestamp)
    (s s2 : String) :
    (∀ r ∈ results, r.passed = false → 1 ≤ r.score ∧ r.score ≤ 10) →
    create_alerts_from_results results now s =
      Except.ok ((results.filter (fun r => !r.passed)).map (mkAlert now s)) ∧
    (∀ r : RuleResult,
      (mkAlert now s r).description = r.message ∧
      (mkAlert now s r).risk_score = r.score ∧
      (mkAlert now s r).affected_records = r.affected_records ∧
      (mkAlert now s r).is_investigated = false ∧
      (mkAlert now s r).title =
        "Anomalia Detectada: " ++ r.rule_type.humanCased ∧
      (mkAlert now s r).id = r.rule_type.value ++ "_" ++ s ∧
      (mkAlert now s r).rule_type = r.rule_type.value ∧
      (mkAlert now s r).created_at = now) ∧
    (create_alerts_from_results results now s).map (List.map alertCore) =
      (create_alerts_from_results results now2 s2).map (List.map alertCore) := by
  intro hall
  refine ⟨create_alerts_ok now s results hall,
    fun r => ⟨rfl, rfl, rfl, rfl, rfl, rfl, rfl, rfl⟩, ?_⟩
  rw [create_alerts_ok now s results hall, create_alerts_ok now2 s2 results hall]
  simp only [Except.map, List.map_map]
  apply congrArg
  apply List.map_congr_left
  intro a _
  rfl

/-- C9 witness: materializing a concrete singleton failing result. -/
theorem alert_materializer_witness :
    create_alerts_from_results [failingResult] ⟨0, 0⟩ "a" =
      Except.ok (([failingResult].filter (fun r => !r.passed)).map
        (mkAlert ⟨0, 0⟩ "a")) ∧
    (create_alerts_from_results [failingResult] ⟨0, 0⟩ "a").map
        (List.map alertCore) =
      (create_alerts_from_results [failingResult] ⟨1, 1⟩ "b").map
        (List.map alertCore) :=
  ⟨(alert_materializer [failingResult] ⟨0, 0⟩ ⟨1, 1⟩ "a" "b" (by decide)).1,
    (alert_materializer [failingResult] ⟨0, 0⟩ ⟨1, 1⟩ "a" "b" (by decide)).2.2⟩

/-- C10: evaluating a Record Set with zero rows returns the empty result
list without any escaping error, and — since every Record Set of the data
model carries the `date` column — each detector on the empty table abstains
or reports a passing result. -/
theorem empty_batch (th : Thresholds) (t : String) (cols : List Col) :
    (run_all_rules th ⟨cols, []⟩ t).1 = [] ∧
    (Col.date ∈ cols →
      ∀ rt, (runDetector rt th ⟨cols, []⟩).1 = DetOutcome.none ∨
        ∃ r, (runDetector rt th ⟨cols, []⟩).1 = DetOutcome.res r ∧
          r.passed = true) := by
  refine ⟨runRules_empty th t ruleOrder ⟨cols, []⟩ rfl, ?_⟩
  intro hdate rt
  rcases runDetector_empty rt th ⟨cols, []⟩ rfl with h | ⟨_, hnd⟩
  · exact h
  · exact absurd hdate hnd

unseal Rat.add Rat.mul Rat.inv Rat.sub in
/-- C10 witness: the empty despesas Record Set produces no results, and the
split-orders detector on it abstains or passes. -/
theorem empty_batch_witness :
    (run_all_rules exampleThresholds ⟨despesasCols, []⟩ "despesas").1 = [] ∧
    Col.date ∈ despesasCols ∧
    ((runDetector RuleType.split_orders exampleThresholds
        ⟨despesasCols, []⟩).1 = DetOutcome.none ∨
      ∃ r, (runDetector RuleType.split_orders exampleThresholds
          ⟨despesasCols, []⟩).1 = DetOutcome.res r ∧ r.passed = true) :=
  ⟨(empty_batch exampleThresholds "despesas" despesasCols).1, by decide,
    (empty_batch exampleThresholds "despesas" despesasCols).2 (by decide)
      RuleType.split_orders⟩

end KPIRules
